import Mathlib

/-!
Verification of the Stayclever hotel-management booking/room-status lifecycle.

The definitions below are a shallow embedding of the client-side lifecycle
logic: the stay-length and price calculator, booking creation
(`addGuestMutation` / `handleAddGuest` in the Guests page), checkout
(`checkoutMutation` / `handleCheckout`), and the effective display-status
derivation (`getDisplayStatus` / `reservationsByRoom` in the Register page).

Dates are modelled as integer epoch-milliseconds (a calendar date parsed from
a date input is an exact multiple of `msPerDay`); missing or unparseable
dates are `none`.  Backend writes are fallible: an oracle record says, for
each write issued by a mutation, whether the backend accepts it or rejects it
with an error string.  A rejected write leaves the store unchanged; the
mutation models the source's sequential, non-transactional calls.
-/

namespace Stayclever

inductive BookingStatus
  | reservation
  | checkedIn
  | checkedOut
deriving DecidableEq, Repr

inductive RoomStatus
  | available
  | occupied
  | cleaning
  | reserved
deriving DecidableEq, Repr

inductive PaymentStatus
  | paid
  | unpaid
deriving DecidableEq, Repr

inductive TxType
  | income
  | expense
deriving DecidableEq, Repr

def msPerDay : Int := 86400000

structure Room where
  id : Nat
  number : String
  typeId : Nat
  typeName : String
  price : Int
  status : RoomStatus
  reservation_date : Option Int
  check_out_date : Option Int
deriving DecidableEq, Repr

structure Guest where
  id : Nat
  name : String
  phone : String
  email : String
  check_in : Int
  check_out : Int
  nights : Int
  price_per_night : Int
  total_price : Int
  payment_method : String
  payment_status : PaymentStatus
  booking_status : BookingStatus
  room_id : Option Nat
  received_by : Option Nat
deriving DecidableEq, Repr

structure Transaction where
  type : TxType
  amount : Int
  category : String
  description : String
  date : Int
deriving DecidableEq, Repr

/-- The backend store, as seen through the collection reads/writes the
lifecycle logic issues.  `nextGuestId` models the DB-generated key for an
inserted guest row. -/
structure DB where
  guests : List Guest
  rooms : List Room
  transactions : List Transaction
  nextGuestId : Nat
deriving DecidableEq, Repr

/-- Stay length.  Source (Guests page `nights` memo): returns `0` when either
date is missing or unparseable; otherwise
`ceil((checkOut - checkIn) / msPerDay)` when the difference is positive and
`0` otherwise.  `-(-d / m)` (with `/` the floor division of `Int`) is the
ceiling of `d / m`. -/
def nights (checkInDate checkOutDate : Option Int) : Int :=
  match checkInDate, checkOutDate with
  | some checkIn, some checkOut =>
    let diff := checkOut - checkIn
    if 0 < diff then -(-diff / msPerDay) else 0
  | _, _ => 0

/-- Source (Guests page `calculatedPrice` memo): `0` when no room is selected
or `nights` is zero, otherwise `selectedRoom.price * nights`. -/
def calculatedPrice (selectedRoom : Option Room) (n : Int) : Int :=
  match selectedRoom with
  | none => 0
  | some room => if n = 0 then 0 else room.price * n

/-- The payload handed to `addGuestMutation` (Guests page). -/
structure GuestPayload where
  name : String
  phone : String
  email : String
  checkIn : Int
  checkOut : Int
  nights : Int
  bookingStatus : BookingStatus
  paymentMethod : String
  paymentStatus : PaymentStatus
  roomId : Nat
  roomNumber : String
  roomTypeName : String
  pricePerNight : Int
  totalPrice : Int
  receivedBy : Option Nat
deriving DecidableEq, Repr

/-- The guest row inserted by step 1 of `addGuestMutation`; `id` is the
DB-generated key. -/
def mkGuest (id : Nat) (p : GuestPayload) : Guest :=
  { id := id
    name := p.name
    phone := p.phone
    email := p.email
    check_in := p.checkIn
    check_out := p.checkOut
    nights := p.nights
    price_per_night := p.pricePerNight
    total_price := p.totalPrice
    payment_method := p.paymentMethod
    payment_status := p.paymentStatus
    booking_status := p.bookingStatus
    room_id := some p.roomId
    received_by := p.receivedBy }

/-- The income transaction inserted by step 3 of `addGuestMutation`. -/
def mkTransaction (p : GuestPayload) : Transaction :=
  { type := TxType.income
    amount := p.totalPrice
    category := "Kamar"
    description := "Pembayaran kamar " ++ p.roomTypeName ++ " • Kamar " ++ p.roomNumber
    date := p.checkIn }

/-- The room update object built by step 2 of `addGuestMutation`:
`reservation_date`/`check_out_date` always, `status` only when the booking
status is `checked-in` (→ `occupied`) or `reservation` (→ `reserved`). -/
def applyRoomUpdates (p : GuestPayload) (r : Room) : Room :=
  let r1 : Room := { r with reservation_date := some p.checkIn, check_out_date := some p.checkOut }
  if p.bookingStatus = BookingStatus.checkedIn then { r1 with status := RoomStatus.occupied }
  else if p.bookingStatus = BookingStatus.reservation then { r1 with status := RoomStatus.reserved }
  else r1

/-- Backend oracle for the three writes of `addGuestMutation`: `none` means
the backend accepts the write, `some e` that it rejects it with error `e`. -/
structure Backend where
  insertGuestErr : Option String
  updateRoomErr : Option String
  insertTxErr : Option String
deriving DecidableEq, Repr

def okBackend : Backend :=
  { insertGuestErr := none, updateRoomErr := none, insertTxErr := none }

/-- A backend that rejects the room update of `addGuestMutation` with `e`. -/
def roomRejectBackend (e : String) : Backend :=
  { insertGuestErr := none, updateRoomErr := some e, insertTxErr := none }

/-- A backend that rejects the transaction insert of `addGuestMutation`
with `e`. -/
def txRejectBackend (e : String) : Backend :=
  { insertGuestErr := none, updateRoomErr := none, insertTxErr := some e }

def insertGuestStep (db : DB) (p : GuestPayload) : DB :=
  { db with
      guests := db.guests ++ [mkGuest db.nextGuestId p]
      nextGuestId := db.nextGuestId + 1 }

def updateRoomStep (db : DB) (p : GuestPayload) : DB :=
  { db with
      rooms := db.rooms.map fun r => if r.id = p.roomId then applyRoomUpdates p r else r }

def insertTxStep (db : DB) (p : GuestPayload) : DB :=
  { db with transactions := db.transactions ++ [mkTransaction p] }

/-- Booking creation (Guests page `addGuestMutation`): insert the guest row,
then update the room, then — when the booking is `checked-in` with a positive
total — insert the income transaction.  Each step is an independent backend
call; the first rejection aborts the sequence with that error and no
compensation of earlier steps.  Returns the surfaced error (if any) together
with the store as left by the steps that did run. -/
def addGuestMutation (be : Backend) (db : DB) (p : GuestPayload) : Option String × DB :=
  match be.insertGuestErr with
  | some e => (some e, db)
  | none =>
    let db1 := insertGuestStep db p
    match be.updateRoomErr with
    | some e => (some e, db1)
    | none =>
      let db2 := updateRoomStep db1 p
      if p.bookingStatus = BookingStatus.checkedIn ∧ 0 < p.totalPrice then
        match be.insertTxErr with
        | some e => (some e, db2)
        | none => (none, insertTxStep db2 p)
      else (none, db2)

/-- The booking-dialog state consulted by `handleAddGuest`. -/
structure GuestForm where
  selectedRoomTypeId : Option Nat
  selectedRoom : Option Room
  checkInDate : Option Int
  checkOutDate : Option Int
  name : String
  phone : String
  email : String
  bookingStatus : BookingStatus
  paymentMethod : String
  paymentStatus : PaymentStatus
  receivedBy : Option Nat
deriving DecidableEq, Repr

inductive AddGuestOutcome
  | rejectedNoType
  | rejectedNoRoom
  | rejectedDates
  | failed (e : String)
  | succeeded
deriving DecidableEq, Repr

/-- The payload `handleAddGuest` builds once its validations pass. -/
def formPayload (f : GuestForm) (room : Room) (n : Int) : GuestPayload :=
  { name := f.name
    phone := f.phone
    email := f.email
    checkIn := f.checkInDate.getD 0
    checkOut := f.checkOutDate.getD 0
    nights := n
    bookingStatus := f.bookingStatus
    paymentMethod := f.paymentMethod
    paymentStatus := f.paymentStatus
    roomId := room.id
    roomNumber := room.number
    roomTypeName := room.typeName
    pricePerNight := room.price
    totalPrice := calculatedPrice (some room) n
    receivedBy := f.receivedBy }

/-- Booking submission (Guests page `handleAddGuest`): validations run in
source order — room type selected, room selected, `nights > 0` — and any
failure rejects the submission before any write; otherwise the payload is
built and `addGuestMutation` runs. -/
def handleAddGuest (be : Backend) (db : DB) (f : GuestForm) : AddGuestOutcome × DB :=
  match f.selectedRoomTypeId with
  | none => (AddGuestOutcome.rejectedNoType, db)
  | some _ =>
    match f.selectedRoom with
    | none => (AddGuestOutcome.rejectedNoRoom, db)
    | some room =>
      let n := nights f.checkInDate f.checkOutDate
      if n ≤ 0 then (AddGuestOutcome.rejectedDates, db)
      else
        match addGuestMutation be db (formPayload f room n) with
        | (some e, db') => (AddGuestOutcome.failed e, db')
        | (none, db') => (AddGuestOutcome.succeeded, db')

/-- Backend oracle for the writes of the checkout flow: the booking-status
update, the room update to `cleaning`, and the delayed reset to
`available`. -/
structure CheckoutBackend where
  updateGuestErr : Option String
  updateRoomErr : Option String
  resetRoomErr : Option String
deriving DecidableEq, Repr

def okCheckoutBackend : CheckoutBackend :=
  { updateGuestErr := none, updateRoomErr := none, resetRoomErr := none }

/-- A checkout backend that rejects the room update to `cleaning` with `e`. -/
def roomRejectCheckoutBackend (e : String) : CheckoutBackend :=
  { updateGuestErr := none, updateRoomErr := some e, resetRoomErr := none }

def updateGuestStatusStep (db : DB) (guestId : Nat) (s : BookingStatus) : DB :=
  { db with
      guests := db.guests.map fun g => if g.id = guestId then { g with booking_status := s } else g }

def setRoomCleaningStep (db : DB) (roomId : Nat) : DB :=
  { db with
      rooms := db.rooms.map fun r => if r.id = roomId then { r with status := RoomStatus.cleaning } else r }

/-- The delay, in milliseconds, before the post-checkout reset of the room to
`available` (the `setTimeout` in `checkoutMutation`). -/
def cleaningDelayMs : Nat := 3000

/-- The delayed callback scheduled by `checkoutMutation`: set the room to
`available` and clear its dates; on a backend rejection nothing happens and
no retry is attempted. -/
def runCleaningReset (be : CheckoutBackend) (db : DB) (roomId : Nat) : DB :=
  match be.resetRoomErr with
  | some _ => db
  | none =>
    { db with
        rooms := db.rooms.map fun r =>
          if r.id = roomId then
            { r with
                status := RoomStatus.available
                reservation_date := none
                check_out_date := none }
          else r }

/-- Checkout (Guests page `checkoutMutation`): set the booking to
`checked-out`; stop there when the guest has no room; otherwise set the room
to `cleaning` and schedule the delayed reset (returned as the pending room
id).  Fidelity note: on a rejected room update the source runs
`if (roomError) throw error` — `error` is the already-null result of the
guests update — so the thrown value is null (`some none` here), not the
backend's rejection. -/
def checkoutMutation (be : CheckoutBackend) (db : DB) (guestId : Nat) (roomId : Option Nat) :
    Option (Option String) × DB × Option Nat :=
  match be.updateGuestErr with
  | some e => (some (some e), db, none)
  | none =>
    let db1 := updateGuestStatusStep db guestId BookingStatus.checkedOut
    match roomId with
    | none => (none, db1, none)
    | some rid =>
      match be.updateRoomErr with
      | some _ => (some none, db1, none)
      | none => (none, setRoomCleaningStep db1 rid, some rid)

inductive CheckoutOutcome
  | guestNotFound
  | refusedNotCheckedIn
  | failed (e : Option String)
  | succeeded
deriving DecidableEq, Repr

/-- Checkout entry point (Guests page `handleCheckout`): look the guest up;
missing guest or a booking status other than `checked-in` is refused with a
toast and no write; otherwise `checkoutMutation` runs.  The third component
is the pending delayed reset, if one was scheduled. -/
def handleCheckout (be : CheckoutBackend) (db : DB) (guestId : Nat) :
    CheckoutOutcome × DB × Option Nat :=
  match db.guests.find? (fun g => g.id == guestId) with
  | none => (CheckoutOutcome.guestNotFound, db, none)
  | some guest =>
    if guest.booking_status ≠ BookingStatus.checkedIn then
      (CheckoutOutcome.refusedNotCheckedIn, db, none)
    else
      match checkoutMutation be db guest.id guest.room_id with
      | (some e, db', t) => (CheckoutOutcome.failed e, db', t)
      | (none, db', t) => (CheckoutOutcome.succeeded, db', t)

/-- A row of the Register page's `room-reservations` query: every guest row,
with no filter on booking status. -/
structure ReservationRow where
  id : Nat
  name : String
  room_id : Option Nat
  booking_status : BookingStatus
  payment_status : PaymentStatus
  check_in : Option Int
  check_out : Option Int
deriving DecidableEq, Repr

/-- `setHours(0,0,0,0)`: truncate a timestamp to its day's midnight. -/
def normalizeMidnight (t : Int) : Int := t / msPerDay * msPerDay

/-- The date-overlap test of `reservationsByRoom`: after normalizing all
three to midnight, the target lies in `[checkIn, checkOut]`, inclusive on
both ends. -/
def overlapsDate (target checkIn checkOut : Int) : Bool :=
  decide (normalizeMidnight checkIn ≤ normalizeMidnight target) &&
    decide (normalizeMidnight target ≤ normalizeMidnight checkOut)

/-- The per-row predicate of `reservationsByRoom` for one room: rows missing
a room id or either date are skipped; the rest match when they belong to the
room and overlap the target date. -/
def rowMatchesRoomDate (target : Int) (roomId : Nat) (row : ReservationRow) : Bool :=
  match row.room_id, row.check_in, row.check_out with
  | some rid, some ci, some co => decide (rid = roomId) && overlapsDate target ci co
  | _, _, _ => false

/-- `reservationsByRoom.get(roomId) ?? []` (Register page): the reservations
overlapping the selected date for one room; empty when no date is
selected. -/
def reservationsForRoom (rows : List ReservationRow) (selectedDate : Option Int) (roomId : Nat) :
    List ReservationRow :=
  match selectedDate with
  | none => []
  | some d => rows.filter (rowMatchesRoomDate d roomId)

/-- Effective display status (Register page `getDisplayStatus`): `cleaning`
is authoritative; with no selected date or no overlapping reservation the
stored status shows; otherwise `occupied` when some overlapping reservation
is `checked-in`, else `reserved`. -/
def getDisplayStatus (rows : List ReservationRow) (selectedDate : Option Int) (room : Room) :
    RoomStatus :=
  if room.status = RoomStatus.cleaning then RoomStatus.cleaning
  else
    match selectedDate with
    | none => room.status
    | some d =>
      let todaysReservations := reservationsForRoom rows (some d) room.id
      if todaysReservations.isEmpty then room.status
      else if todaysReservations.any (fun r => decide (r.booking_status = BookingStatus.checkedIn)) then
        RoomStatus.occupied
      else RoomStatus.reserved

/-! Concrete fixtures, used by the witness theorems.  They instantiate the
end-to-end scenarios of the specification: room 101 at Rp 500,000 per night
and a two-night stay (days 10 to 12, as epoch-day indices). -/

def roomA : Room :=
  { id := 101
    number := "101"
    typeId := 1
    typeName := "Deluxe"
    price := 500000
    status := RoomStatus.available
    reservation_date := none
    check_out_date := none }

def roomClean : Room :=
  { roomA with id := 102, number := "102", status := RoomStatus.cleaning }

def dbA : DB := { guests := [], rooms := [roomA], transactions := [], nextGuestId := 1 }

def payloadA : GuestPayload :=
  { name := "Guest A"
    phone := "0811"
    email := "a@example.com"
    checkIn := 10 * msPerDay
    checkOut := 12 * msPerDay
    nights := 2
    bookingStatus := BookingStatus.checkedIn
    paymentMethod := "cash"
    paymentStatus := PaymentStatus.paid
    roomId := 101
    roomNumber := "101"
    roomTypeName := "Deluxe"
    pricePerNight := 500000
    totalPrice := 1000000
    receivedBy := some 7 }

/-- A filled booking form whose check-out precedes its check-in. -/
def formBadDates : GuestForm :=
  { selectedRoomTypeId := some 1
    selectedRoom := some roomA
    checkInDate := some (12 * msPerDay)
    checkOutDate := some (10 * msPerDay)
    name := "Guest B"
    phone := "0812"
    email := ""
    bookingStatus := BookingStatus.reservation
    paymentMethod := "cash"
    paymentStatus := PaymentStatus.unpaid
    receivedBy := none }

def guestA : Guest :=
  { id := 1
    name := "Guest A"
    phone := "0811"
    email := "a@example.com"
    check_in := 10 * msPerDay
    check_out := 12 * msPerDay
    nights := 2
    price_per_night := 500000
    total_price := 1000000
    payment_method := "cash"
    payment_status := PaymentStatus.paid
    booking_status := BookingStatus.checkedIn
    room_id := some 101
    received_by := some 7 }

def guestB : Guest :=
  { guestA with id := 2, name := "Guest B", booking_status := BookingStatus.reservation }

/-- Store holding the checked-in scenario-A guest. -/
def dbC : DB := { guests := [guestA], rooms := [roomA], transactions := [], nextGuestId := 2 }

/-- Store holding a reservation-status guest. -/
def dbB : DB := { guests := [guestB], rooms := [roomA], transactions := [], nextGuestId := 3 }

def rowCheckedIn : ReservationRow :=
  { id := 1
    name := "Guest A"
    room_id := some 101
    booking_status := BookingStatus.checkedIn
    payment_status := PaymentStatus.paid
    check_in := some (10 * msPerDay)
    check_out := some (12 * msPerDay) }

def rowReservation : ReservationRow :=
  { rowCheckedIn with id := 2, name := "Guest B", booking_status := BookingStatus.reservation }

def rowCheckedOut : ReservationRow :=
  { rowCheckedIn with id := 3, name := "Guest C", booking_status := BookingStatus.checkedOut }

/-! Helper lemmas. -/

theorem nights_some_some (a b : Int) :
    nights (some a) (some b) = if 0 < b - a then -(-(b - a) / msPerDay) else 0 := rfl

theorem nights_nonneg (a b : Option Int) : 0 ≤ nights a b := by
  match a, b with
  | none, _ => exact le_refl 0
  | some _, none => exact le_refl 0
  | some x, some y =>
    rw [nights_some_some]
    split
    · rename_i h
      have hlt : -(y - x) / msPerDay < 0 :=
        Int.ediv_neg' (by omega) (by norm_num [msPerDay])
      omega
    · exact le_refl 0

theorem nights_pos_of_lt (ci co : Int) (h : ci < co) :
    nights (some (ci * msPerDay)) (some (co * msPerDay)) = co - ci := by
  rw [nights_some_some]
  rw [if_pos (by norm_num [msPerDay]; nlinarith : (0 : Int) < co * msPerDay - ci * msPerDay)]
  rw [show -(co * msPerDay - ci * msPerDay) = -(co - ci) * msPerDay by ring]
  rw [show -(co - ci) * msPerDay / msPerDay = -(co - ci) from
    Int.mul_ediv_cancel _ (by norm_num [msPerDay])]
  ring

/-- C2: for calendar dates (day indices `ci`, `co`, timestamps a multiple of
`msPerDay`) with `ci < co`, the computed nights is the (ceiling of the) day
difference and is at least 1; with `co ≤ ci`, or with a missing or
unparseable date, nights is 0 and `handleAddGuest` rejects the submission
with the store untouched. -/
theorem c2_nights_and_rejection (ci co : Int) (be : Backend) (db : DB) (f : GuestForm) :
    (ci < co →
      nights (some (ci * msPerDay)) (some (co * msPerDay)) = co - ci ∧
      1 ≤ nights (some (ci * msPerDay)) (some (co * msPerDay))) ∧
    (co ≤ ci → nights (some (ci * msPerDay)) (some (co * msPerDay)) = 0) ∧
    nights none (some (co * msPerDay)) = 0 ∧
    nights (some (ci * msPerDay)) none = 0 ∧
    (nights f.checkInDate f.checkOutDate = 0 →
      (handleAddGuest be db f).2 = db ∧
      ((handleAddGuest be db f).1 = AddGuestOutcome.rejectedNoType ∨
        (handleAddGuest be db f).1 = AddGuestOutcome.rejectedNoRoom ∨
        (handleAddGuest be db f).1 = AddGuestOutcome.rejectedDates)) := by
  refine ⟨?_, ?_, rfl, rfl, ?_⟩
  · intro h
    refine ⟨nights_pos_of_lt ci co h, ?_⟩
    rw [nights_pos_of_lt ci co h]
    omega
  · intro h
    rw [nights_some_some, if_neg]
    have hm : ci * msPerDay - co * msPerDay = (ci - co) * msPerDay := by ring
    norm_num [msPerDay]
    nlinarith
  · intro hn
    rcases hty : f.selectedRoomTypeId with _ | t
    · simp [handleAddGuest, hty]
    · rcases hrm : f.selectedRoom with _ | room
      · simp [handleAddGuest, hty, hrm]
      · have hn0 : nights f.checkInDate f.checkOutDate ≤ 0 := le_of_eq hn
        simp only [handleAddGuest, hty, hrm]
        rw [if_pos hn0]
        simp

/-- Witness for `c2_nights_and_rejection`: days 10 and 12 give 2 nights, and
the reversed-dates form is rejected with the store untouched. -/
theorem c2_nights_and_rejection_witness :
    nights (some (10 * msPerDay)) (some (12 * msPerDay)) = 12 - 10 ∧
    nights formBadDates.checkInDate formBadDates.checkOutDate = 0 ∧
    (handleAddGuest okBackend dbA formBadDates).2 = dbA :=
  ⟨((c2_nights_and_rejection 10 12 okBackend dbA formBadDates).1 (by norm_num)).1,
   by decide,
   ((c2_nights_and_rejection 10 12 okBackend dbA formBadDates).2.2.2.2 (by decide)).1⟩

/-- C3: for every selected room and every pair of dates the calculated total
price is exactly `nights × pricePerNight` (including `pricePerNight = 0`),
and it is 0 whenever `nights` is 0. -/
theorem c3_total_price (room : Room) (ci co : Option Int) :
    calculatedPrice (some room) (nights ci co) = nights ci co * room.price ∧
    (nights ci co = 0 → calculatedPrice (some room) (nights ci co) = 0) := by
  constructor
  · show (if nights ci co = 0 then 0 else room.price * nights ci co) = _
    split
    · rename_i h
      rw [h]
      ring
    · ring
  · intro h
    rw [h]
    rfl

/-- Witness for `c3_total_price`: the scenario-A stay (2 nights at
Rp 500,000) and a reversed-dates stay (0 nights, price 0). -/
theorem c3_total_price_witness :
    calculatedPrice (some roomA) (nights (some (10 * msPerDay)) (some (12 * msPerDay))) =
      nights (some (10 * msPerDay)) (some (12 * msPerDay)) * roomA.price ∧
    calculatedPrice (some roomA) (nights (some (12 * msPerDay)) (some (10 * msPerDay))) = 0 :=
  ⟨(c3_total_price roomA (some (10 * msPerDay)) (some (12 * msPerDay))).1,
   (c3_total_price roomA (some (12 * msPerDay)) (some (10 * msPerDay))).2 (by decide)⟩

theorem addGuestMutation_ok (db : DB) (p : GuestPayload) :
    addGuestMutation okBackend db p =
      (none,
        if p.bookingStatus = BookingStatus.checkedIn ∧ 0 < p.totalPrice then
          insertTxStep (updateRoomStep (insertGuestStep db p) p) p
        else updateRoomStep (insertGuestStep db p) p) := by
  by_cases h : p.bookingStatus = BookingStatus.checkedIn ∧ 0 < p.totalPrice
  · rw [if_pos h]
    show (if p.bookingStatus = BookingStatus.checkedIn ∧ 0 < p.totalPrice then _ else _) = _
    rw [if_pos h]
  · rw [if_neg h]
    show (if p.bookingStatus = BookingStatus.checkedIn ∧ 0 < p.totalPrice then _ else _) = _
    rw [if_neg h]

/-- C1: with every backend write accepted, booking creation succeeds, the
assigned room ends with `reservation_date = checkIn`,
`check_out_date = checkOut` and status `occupied` for a `checked-in` booking
and `reserved` for a `reservation` booking, and an income transaction of
amount `totalPrice` dated `checkIn` is appended exactly when the booking is
`checked-in` with positive total. -/
theorem c1_booking_creation (db : DB) (p : GuestPayload) (r : Room)
    (hs : p.bookingStatus = BookingStatus.checkedIn ∨ p.bookingStatus = BookingStatus.reservation)
    (hr : r ∈ db.rooms) (hid : r.id = p.roomId) :
    (addGuestMutation okBackend db p).1 = none ∧
    ({ r with
        reservation_date := some p.checkIn
        check_out_date := some p.checkOut
        status :=
          if p.bookingStatus = BookingStatus.checkedIn then RoomStatus.occupied
          else RoomStatus.reserved } : Room) ∈ (addGuestMutation okBackend db p).2.rooms ∧
    (addGuestMutation okBackend db p).2.transactions =
      db.transactions ++
        (if p.bookingStatus = BookingStatus.checkedIn ∧ 0 < p.totalPrice then [mkTransaction p]
         else []) ∧
    (mkTransaction p).amount = p.totalPrice ∧
    (mkTransaction p).date = p.checkIn ∧
    (mkTransaction p).type = TxType.income := by
  rw [addGuestMutation_ok]
  have hrooms :
      (if p.bookingStatus = BookingStatus.checkedIn ∧ 0 < p.totalPrice then
          insertTxStep (updateRoomStep (insertGuestStep db p) p) p
        else updateRoomStep (insertGuestStep db p) p).rooms =
      db.rooms.map fun x => if x.id = p.roomId then applyRoomUpdates p x else x := by
    split <;> rfl
  have htx :
      (if p.bookingStatus = BookingStatus.checkedIn ∧ 0 < p.totalPrice then
          insertTxStep (updateRoomStep (insertGuestStep db p) p) p
        else updateRoomStep (insertGuestStep db p) p).transactions =
      db.transactions ++
        (if p.bookingStatus = BookingStatus.checkedIn ∧ 0 < p.totalPrice then [mkTransaction p]
         else []) := by
    split
    · rfl
    · simp [updateRoomStep, insertGuestStep]
  refine ⟨rfl, ?_, htx, rfl, rfl, rfl⟩
  rw [hrooms]
  have himg :
      ({ r with
          reservation_date := some p.checkIn
          check_out_date := some p.checkOut
          status :=
            if p.bookingStatus = BookingStatus.checkedIn then RoomStatus.occupied
            else RoomStatus.reserved } : Room) =
      (if r.id = p.roomId then applyRoomUpdates p r else r) := by
    rw [if_pos hid]
    rcases hs with h | h <;> simp [applyRoomUpdates, h]
  rw [himg]
  exact List.mem_map_of_mem _ hr

/-- Witness for `c1_booking_creation`: the scenario-A checked-in booking of
room 101 succeeds and room 101 becomes occupied with the stay dates set. -/
theorem c1_booking_creation_witness :
    roomA ∈ dbA.rooms ∧
    (addGuestMutation okBackend dbA payloadA).1 = none ∧
    ({ roomA with
        reservation_date := some payloadA.checkIn
        check_out_date := some payloadA.checkOut
        status :=
          if payloadA.bookingStatus = BookingStatus.checkedIn then RoomStatus.occupied
          else RoomStatus.reserved } : Room) ∈ (addGuestMutation okBackend dbA payloadA).2.rooms :=
  ⟨by decide,
   (c1_booking_creation dbA payloadA roomA (Or.inl rfl) (by decide) rfl).1,
   (c1_booking_creation dbA payloadA roomA (Or.inl rfl) (by decide) rfl).2.1⟩

/-- C8: booking creation is not atomic.  When the room update is the step
the backend rejects, the error surfaces while the inserted booking row
persists (and no room was touched); when the transaction insert is the
rejected step, both the booking row and the room update persist.  No
compensating rollback happens in either case. -/
theorem c8_non_atomic (db : DB) (p : GuestPayload) (e : String)
    (hs : p.bookingStatus = BookingStatus.checkedIn) (hp : 0 < p.totalPrice) :
    (addGuestMutation (roomRejectBackend e) db p).1 = some e ∧
    mkGuest db.nextGuestId p ∈ (addGuestMutation (roomRejectBackend e) db p).2.guests ∧
    (addGuestMutation (roomRejectBackend e) db p).2.rooms = db.rooms ∧
    (addGuestMutation (txRejectBackend e) db p).1 = some e ∧
    mkGuest db.nextGuestId p ∈ (addGuestMutation (txRejectBackend e) db p).2.guests ∧
    (addGuestMutation (txRejectBackend e) db p).2.rooms =
      db.rooms.map (fun x => if x.id = p.roomId then applyRoomUpdates p x else x) ∧
    (addGuestMutation (txRejectBackend e) db p).2.transactions = db.transactions := by
  have h2 : addGuestMutation (txRejectBackend e) db p =
      (some e, updateRoomStep (insertGuestStep db p) p) := by
    show (if p.bookingStatus = BookingStatus.checkedIn ∧ 0 < p.totalPrice then _ else _) = _
    rw [if_pos ⟨hs, hp⟩]
  refine ⟨rfl, ?_, rfl, ?_, ?_, ?_, ?_⟩
  · show mkGuest db.nextGuestId p ∈ (insertGuestStep db p).guests
    simp [insertGuestStep]
  · rw [h2]
  · rw [h2]
    show mkGuest db.nextGuestId p ∈ (insertGuestStep db p).guests
    simp [insertGuestStep]
  · rw [h2]
    rfl
  · rw [h2]
    rfl

/-- Witness for `c8_non_atomic`: the scenario-A payload against a backend
that rejects the room update — the error surfaces and the booking row is in
the store. -/
theorem c8_non_atomic_witness :
    payloadA.bookingStatus = BookingStatus.checkedIn ∧ 0 < payloadA.totalPrice ∧
    (addGuestMutation (roomRejectBackend "room update rejected") dbA payloadA).1 =
      some "room update rejected" ∧
    mkGuest dbA.nextGuestId payloadA ∈
      (addGuestMutation (roomRejectBackend "room update rejected") dbA payloadA).2.guests :=
  ⟨rfl, by decide,
   (c8_non_atomic dbA payloadA "room update rejected" rfl (by decide)).1,
   (c8_non_atomic dbA payloadA "room update rejected" rfl (by decide)).2.1⟩

/-- C6: checkout invoked on a booking whose status is not `checked-in` is
refused with a warning and writes nothing: the store is returned unchanged
and no delayed reset is scheduled. -/
theorem c6_checkout_refused (be : CheckoutBackend) (db : DB) (guestId : Nat) (g : Guest)
    (hfind : db.guests.find? (fun x => x.id == guestId) = some g)
    (hst : g.booking_status ≠ BookingStatus.checkedIn) :
    handleCheckout be db guestId = (CheckoutOutcome.refusedNotCheckedIn, db, none) := by
  simp only [handleCheckout, hfind]
  rw [if_pos hst]

/-- Witness for `c6_checkout_refused`: checkout of the reservation-status
guest is refused and the store is unchanged. -/
theorem c6_checkout_refused_witness :
    dbB.guests.find? (fun x => x.id == 2) = some guestB ∧
    handleCheckout okCheckoutBackend dbB 2 = (CheckoutOutcome.refusedNotCheckedIn, dbB, none) :=
  ⟨by decide, c6_checkout_refused okCheckoutBackend dbB 2 guestB (by decide) (by decide)⟩

/-- C7: checkout of a `checked-in` booking with an assigned room succeeds:
the booking becomes `checked-out` and the room `cleaning` immediately, a
reset is scheduled for after the 3000 ms delay, and that reset — when the
backend accepts it — makes the room `available` with both dates cleared,
while a rejected reset leaves the room in `cleaning` with no retry. -/
theorem c7_checkout_success (be : CheckoutBackend) (db : DB) (guestId rid : Nat)
    (g : Guest) (r : Room)
    (hbe1 : be.updateGuestErr = none) (hbe2 : be.updateRoomErr = none)
    (hfind : db.guests.find? (fun x => x.id == guestId) = some g)
    (hst : g.booking_status = BookingStatus.checkedIn)
    (hroom : g.room_id = some rid)
    (hr : r ∈ db.rooms) (hrid : r.id = rid) :
    handleCheckout be db guestId =
      (CheckoutOutcome.succeeded,
        setRoomCleaningStep (updateGuestStatusStep db g.id BookingStatus.checkedOut) rid,
        some rid) ∧
    ({ g with booking_status := BookingStatus.checkedOut } : Guest) ∈
      (setRoomCleaningStep (updateGuestStatusStep db g.id BookingStatus.checkedOut) rid).guests ∧
    ({ r with status := RoomStatus.cleaning } : Room) ∈
      (setRoomCleaningStep (updateGuestStatusStep db g.id BookingStatus.checkedOut) rid).rooms ∧
    cleaningDelayMs = 3000 ∧
    (be.resetRoomErr = none →
      ({ r with
          status := RoomStatus.available
          reservation_date := none
          check_out_date := none } : Room) ∈
        (runCleaningReset be
          (setRoomCleaningStep (updateGuestStatusStep db g.id BookingStatus.checkedOut) rid)
          rid).rooms) ∧
    (∀ e, be.resetRoomErr = some e →
      runCleaningReset be
          (setRoomCleaningStep (updateGuestStatusStep db g.id BookingStatus.checkedOut) rid)
          rid =
        setRoomCleaningStep (updateGuestStatusStep db g.id BookingStatus.checkedOut) rid) := by
  have hg : g ∈ db.guests := List.mem_of_find?_eq_some hfind
  have hmut : checkoutMutation be db g.id g.room_id =
      (none, setRoomCleaningStep (updateGuestStatusStep db g.id BookingStatus.checkedOut) rid,
        some rid) := by
    simp only [checkoutMutation, hbe1, hroom, hbe2]
  have hmemr : ({ r with status := RoomStatus.cleaning } : Room) ∈
      (setRoomCleaningStep (updateGuestStatusStep db g.id BookingStatus.checkedOut) rid).rooms := by
    have hmap := List.mem_map_of_mem
      (fun x => if x.id = rid then ({ x with status := RoomStatus.cleaning } : Room) else x)
      (show r ∈ (updateGuestStatusStep db g.id BookingStatus.checkedOut).rooms from hr)
    simpa [setRoomCleaningStep, hrid] using hmap
  refine ⟨?_, ?_, hmemr, rfl, ?_, ?_⟩
  · simp only [handleCheckout, hfind]
    rw [if_neg (by simp [hst])]
    rw [hmut]
  · have hmap := List.mem_map_of_mem
      (fun x => if x.id = g.id then ({ x with booking_status := BookingStatus.checkedOut } : Guest)
        else x) hg
    simpa [updateGuestStatusStep, setRoomCleaningStep] using hmap
  · intro hre
    simp only [runCleaningReset, hre]
    have hmap := List.mem_map_of_mem
      (fun x => if x.id = rid then
          ({ x with
              status := RoomStatus.available
              reservation_date := none
              check_out_date := none } : Room)
        else x) hmemr
    simpa [hrid] using hmap
  · intro e hre
    simp only [runCleaningReset, hre]

/-- Witness for `c7_checkout_success`: checkout of the scenario-A guest in
room 101 under an all-accepting backend. -/
theorem c7_checkout_success_witness :
    dbC.guests.find? (fun x => x.id == 1) = some guestA ∧
    handleCheckout okCheckoutBackend dbC 1 =
      (CheckoutOutcome.succeeded,
        setRoomCleaningStep (updateGuestStatusStep dbC guestA.id BookingStatus.checkedOut) 101,
        some 101) ∧
    ({ roomA with status := RoomStatus.cleaning } : Room) ∈
      (setRoomCleaningStep (updateGuestStatusStep dbC guestA.id BookingStatus.checkedOut)
        101).rooms :=
  ⟨by decide,
   (c7_checkout_success okCheckoutBackend dbC 1 101 guestA roomA rfl rfl (by decide) rfl rfl
      (by decide) rfl).1,
   (c7_checkout_success okCheckoutBackend dbC 1 101 guestA roomA rfl rfl (by decide) rfl rfl
      (by decide) rfl).2.2.1⟩

/-- C9 fails on the code: when the booking update succeeds and the backend
rejects the room update with error `e`, `checkoutMutation` runs
`if (roomError) throw error` and so throws the (null) error of the earlier
booking update instead of `roomError`; the caller receives a null value, not
`e`, while the booking update persists. -/
theorem c9_room_rejection_error_swallowed :
    (handleCheckout (roomRejectCheckoutBackend "room update rejected") dbC 1).1 =
      CheckoutOutcome.failed none ∧
    CheckoutOutcome.failed none ≠
      CheckoutOutcome.failed (some "room update rejected") ∧
    (handleCheckout (roomRejectCheckoutBackend "room update rejected") dbC 1).2.1 =
      updateGuestStatusStep dbC 1 BookingStatus.checkedOut := by
  refine ⟨by decide, by decide, by decide⟩

theorem getDisplayStatus_not_cleaning (rows : List ReservationRow) (d : Int) (room : Room)
    (hclean : room.status ≠ RoomStatus.cleaning) :
    getDisplayStatus rows (some d) room =
      if (rows.filter (rowMatchesRoomDate d room.id)).isEmpty then room.status
      else if (rows.filter (rowMatchesRoomDate d room.id)).any
          (fun r => decide (r.booking_status = BookingStatus.checkedIn)) then
        RoomStatus.occupied
      else RoomStatus.reserved := by
  unfold getDisplayStatus
  rw [if_neg hclean]
  rfl

/-- C4: for a room not stored as `cleaning` and a selected date, any
overlapping `checked-in` booking makes the display status `occupied`
(taking precedence over simultaneous reservations), and when the
overlapping bookings are all of status `reservation` the display status is
`reserved`. -/
theorem c4_occupied_precedence (rows : List ReservationRow) (d : Int) (room : Room)
    (hclean : room.status ≠ RoomStatus.cleaning) :
    ((∃ row ∈ rows, rowMatchesRoomDate d room.id row = true ∧
        row.booking_status = BookingStatus.checkedIn) →
      getDisplayStatus rows (some d) room = RoomStatus.occupied) ∧
    ((∃ row ∈ rows, rowMatchesRoomDate d room.id row = true) →
      (∀ row ∈ rows, rowMatchesRoomDate d room.id row = true →
        row.booking_status = BookingStatus.reservation) →
      getDisplayStatus rows (some d) room = RoomStatus.reserved) := by
  rw [getDisplayStatus_not_cleaning rows d room hclean]
  constructor
  · rintro ⟨row, hmem, hmatch, hci⟩
    have hmemf : row ∈ rows.filter (rowMatchesRoomDate d room.id) :=
      List.mem_filter.mpr ⟨hmem, hmatch⟩
    have hne : (rows.filter (rowMatchesRoomDate d room.id)).isEmpty = false :=
      List.isEmpty_eq_false.mpr (List.ne_nil_of_mem hmemf)
    have hany : (rows.filter (rowMatchesRoomDate d room.id)).any
        (fun r => decide (r.booking_status = BookingStatus.checkedIn)) = true :=
      List.any_eq_true.mpr ⟨row, hmemf, by simp [hci]⟩
    rw [hne, hany]
    simp
  · rintro ⟨row, hmem, hmatch⟩ hall
    have hmemf : row ∈ rows.filter (rowMatchesRoomDate d room.id) :=
      List.mem_filter.mpr ⟨hmem, hmatch⟩
    have hne : (rows.filter (rowMatchesRoomDate d room.id)).isEmpty = false :=
      List.isEmpty_eq_false.mpr (List.ne_nil_of_mem hmemf)
    have hany : (rows.filter (rowMatchesRoomDate d room.id)).any
        (fun r => decide (r.booking_status = BookingStatus.checkedIn)) = false := by
      refine List.any_eq_false.mpr ?_
      intro x hx
      rcases List.mem_filter.mp hx with ⟨hxm, hxmatch⟩
      simp [hall x hxm hxmatch]
    rw [hne, hany]
    simp

/-- Witness for `c4_occupied_precedence`: with a `checked-in` and a
`reservation` booking both overlapping day 11 of room 101, the display
status is `occupied`. -/
theorem c4_occupied_precedence_witness :
    roomA.status ≠ RoomStatus.cleaning ∧
    getDisplayStatus [rowCheckedIn, rowReservation] (some (11 * msPerDay)) roomA =
      RoomStatus.occupied :=
  ⟨by decide,
   (c4_occupied_precedence [rowCheckedIn, rowReservation] (11 * msPerDay) roomA (by decide)).1
     ⟨rowCheckedIn, by decide, by decide, rfl⟩⟩

/-- C5: a room stored as `cleaning` displays `cleaning` on every selected
date regardless of overlapping bookings, and a room with no overlapping
booking on the selected date displays its stored status. -/
theorem c5_cleaning_and_stored (rows : List ReservationRow) (sd : Option Int) (d : Int)
    (room : Room) :
    (room.status = RoomStatus.cleaning → getDisplayStatus rows sd room = RoomStatus.cleaning) ∧
    ((∀ row ∈ rows, rowMatchesRoomDate d room.id row = false) →
      getDisplayStatus rows (some d) room = room.status) := by
  constructor
  · intro h
    unfold getDisplayStatus
    rw [if_pos h]
  · intro hall
    by_cases hc : room.status = RoomStatus.cleaning
    · unfold getDisplayStatus
      rw [if_pos hc, hc]
    · rw [getDisplayStatus_not_cleaning rows d room hc]
      have hnil : rows.filter (rowMatchesRoomDate d room.id) = [] :=
        List.filter_eq_nil_iff.mpr (fun a ha => by simp [hall a ha])
      rw [hnil]
      simp

/-- Witness for `c5_cleaning_and_stored`: room 102 stored as `cleaning`
displays `cleaning` despite an overlapping checked-in booking, and room 101
with no overlapping booking displays its stored status. -/
theorem c5_cleaning_and_stored_witness :
    roomClean.status = RoomStatus.cleaning ∧
    getDisplayStatus [rowCheckedIn] (some (11 * msPerDay)) roomClean = RoomStatus.cleaning ∧
    getDisplayStatus [] (some (11 * msPerDay)) roomA = roomA.status :=
  ⟨rfl,
   (c5_cleaning_and_stored [rowCheckedIn] (some (11 * msPerDay)) (11 * msPerDay) roomClean).1 rfl,
   (c5_cleaning_and_stored [] (some (11 * msPerDay)) (11 * msPerDay) roomA).2 (by simp)⟩

/-- C10: checked-out bookings are not filtered out of the overlap set: for a
room not stored as `cleaning`, when the overlapping bookings for the
selected date all have status `checked-out`, the display status is
`reserved`. -/
theorem c10_checked_out_displays_reserved (rows : List ReservationRow) (d : Int) (room : Room)
    (hclean : room.status ≠ RoomStatus.cleaning)
    (hex : ∃ row ∈ rows, rowMatchesRoomDate d room.id row = true)
    (hall : ∀ row ∈ rows, rowMatchesRoomDate d room.id row = true →
      row.booking_status = BookingStatus.checkedOut) :
    getDisplayStatus rows (some d) room = RoomStatus.reserved := by
  rw [getDisplayStatus_not_cleaning rows d room hclean]
  rcases hex with ⟨row, hmem, hmatch⟩
  have hmemf : row ∈ rows.filter (rowMatchesRoomDate d room.id) :=
    List.mem_filter.mpr ⟨hmem, hmatch⟩
  have hne : (rows.filter (rowMatchesRoomDate d room.id)).isEmpty = false :=
    List.isEmpty_eq_false.mpr (List.ne_nil_of_mem hmemf)
  have hany : (rows.filter (rowMatchesRoomDate d room.id)).any
      (fun r => decide (r.booking_status = BookingStatus.checkedIn)) = false := by
    refine List.any_eq_false.mpr ?_
    intro x hx
    rcases List.mem_filter.mp hx with ⟨hxm, hxmatch⟩
    simp [hall x hxm hxmatch]
  rw [hne, hany]
  simp

/-- Witness for `c10_checked_out_displays_reserved`: a single checked-out
booking overlapping day 11 of room 101 makes the display status
`reserved`. -/
theorem c10_checked_out_displays_reserved_witness :
    roomA.status ≠ RoomStatus.cleaning ∧
    getDisplayStatus [rowCheckedOut] (some (11 * msPerDay)) roomA = RoomStatus.reserved :=
  ⟨by decide,
   c10_checked_out_displays_reserved [rowCheckedOut] (11 * msPerDay) roomA (by decide)
     ⟨rowCheckedOut, by decide, by decide⟩ (by decide)⟩

end Stayclever
